import Mathlib

/-!
Verification development for the photoAlbum repository.

The repository has two pipelines, each present in more than one variant:

* ingestion: `src/backend/lf1_deployment/lambda_function.py` (`lambda_handler`)
  and `src/index.py` (`handle_indexing`);
* search: `src/backend/lf2_deployment/lambda_function.py` and
  `src/lf2_deployment/lambda_function.py` (`lambda_handler`,
  `get_keywords_from_lex`, `search_elasticsearch`) and `src/index.py`
  (`handle_search`).

Each handler is embedded as a pure function of the outcomes of its external
collaborators (S3 head-object, Rekognition detect-labels, Lex recognize-text,
the OpenSearch index), passed in as an environment record.  Exceptions are
`Except`, Python `None` is `Option.none`, and the search index is a map from
document id to document.  Handlers additionally return the list of queries
they issued to the search index, so that "no call was made" is observable.
-/

namespace PhotoAlbum

/-! ## Python string primitives

All primitives are written by structural recursion over `List Char` so that
they evaluate inside the kernel on concrete inputs. -/

/-- Python `s.strip()` on a character list: drop whitespace at both ends. -/
def pyStripChars (l : List Char) : List Char :=
  ((l.dropWhile Char.isWhitespace).reverse.dropWhile Char.isWhitespace).reverse

/-- Python `s.strip()` (whitespace trim). -/
def pyStrip (s : String) : String := ⟨pyStripChars s.data⟩

/-- ASCII lowering of one character (Python `str.lower` restricted to the
ASCII range, which is what the handlers' labels exercise). -/
def pyLowerChar (c : Char) : Char :=
  if 'A' ≤ c ∧ c ≤ 'Z' then Char.ofNat (c.toNat + 32) else c

/-- Python `s.lower()`. -/
def pyLower (s : String) : String := ⟨s.data.map pyLowerChar⟩

/-- Split a character list at every character satisfying `p`, keeping empty
pieces; `acc` is the (reversed) piece being accumulated.  This is Python
`str.split(sep)` for a one-character separator when `p` tests for it. -/
def splitCharsBy (p : Char → Bool) : List Char → List Char → List (List Char)
  | [], acc => [acc.reverse]
  | c :: rest, acc =>
    if p c then acc.reverse :: splitCharsBy p rest []
    else splitCharsBy p rest (c :: acc)

/-- Python `s.split(',')`. -/
def pySplitComma (s : String) : List String :=
  (splitCharsBy (fun c => c = ',') s.data []).map (fun l => (⟨l⟩ : String))

/-- Python `s.split()` with no argument: split on whitespace, dropping empty
tokens. -/
def pySplitWs (s : String) : List String :=
  ((splitCharsBy Char.isWhitespace s.data []).map
    (fun l => (⟨l⟩ : String))).filter (fun t => t ≠ "")

/-- Python `" ".join(l)`. -/
def pyJoinSpace : List String → String
  | [] => ""
  | [s] => s
  | s :: rest => s ++ " " ++ pyJoinSpace rest

/-- Python truthiness of an optional string: `None` and `""` are falsy. -/
def pyTruthyStr (o : Option String) : Bool :=
  match o with
  | none => false
  | some s => s ≠ ""

/-- Value of a hexadecimal digit character, if any. -/
def hexDigitVal (c : Char) : Option Nat :=
  if '0' ≤ c ∧ c ≤ '9' then some (c.toNat - '0'.toNat)
  else if 'a' ≤ c ∧ c ≤ 'f' then some (c.toNat - 'a'.toNat + 10)
  else if 'A' ≤ c ∧ c ≤ 'F' then some (c.toNat - 'A'.toNat + 10)
  else none

/-- Character-level `urllib.parse.unquote_plus`: `+` becomes a space and a
valid `%XX` escape becomes the escaped character; malformed escapes are kept
as-is (byte-level decoding restricted to single-byte code points, which is
what the handlers' object keys exercise). -/
def unquotePlusChars : List Char → List Char
  | [] => []
  | '+' :: rest => ' ' :: unquotePlusChars rest
  | '%' :: a :: b :: rest =>
    match hexDigitVal a, hexDigitVal b with
    | some hi, some lo => Char.ofNat (16 * hi + lo) :: unquotePlusChars rest
    | _, _ => '%' :: unquotePlusChars (a :: b :: rest)
  | c :: rest => c :: unquotePlusChars rest

/-- Python `urllib.parse.unquote_plus` on a string. -/
def unquotePlus (s : String) : String := ⟨unquotePlusChars s.data⟩

/-- Python `dict.get(k, dflt)` on a string-valued dict. -/
def dictGet (d : List (String × String)) (k : String) (dflt : String) : String :=
  match d.find? (fun p => p.1 == k) with
  | some p => p.2
  | none => dflt

/-- Python `dict[k]`-style lookup returning `none` when the key is absent. -/
def dictFind (d : List (String × String)) (k : String) : Option String :=
  match d.find? (fun p => p.1 == k) with
  | some p => some p.2
  | none => none

/-! ## Shared event and index model -/

/-- One record of a storage-write notification: `Records[i].s3`. -/
structure S3Record where
  bucketName : String
  /-- The object key exactly as delivered (percent-encoded). -/
  objectKey : String
deriving DecidableEq

/-- A storage-write notification.  An event whose `Records` list is empty
models the malformed-notification case (missing/empty `Records` raises in
Python and is caught by the handler). -/
structure S3Event where
  records : List S3Record
deriving DecidableEq

/-- The indexed search document, as built by the ingestion handlers. -/
structure Document where
  objectKey : String
  bucket : String
  createdTimestamp : String
  labels : List String
deriving DecidableEq

/-- The OpenSearch `photos` index: a map from document id to document. -/
def OSIndex := String → Option Document

/-- A `PUT host/photos/_doc/id` write: create-or-replace at a fixed id. -/
def osUpsert (idx : OSIndex) (docId : String) (d : Document) : OSIndex :=
  fun k => if k = docId then some d else idx k

theorem osUpsert_idem (idx : OSIndex) (docId : String) (d : Document) :
    osUpsert (osUpsert idx docId d) docId d = osUpsert idx docId d := by
  funext k
  by_cases h : k = docId <;> simp [osUpsert, h]

/-! ## lf1: src/backend/lf1_deployment/lambda_function.py -/

/-- A Python value that is either a `datetime` (as returned in `LastModified`)
or the float returned by `time.time()`. -/
inductive PyTimeVal
  | datetimeVal (iso : String)
  | floatVal
deriving DecidableEq

/-- `.isoformat()`: defined on a datetime; on the float from `time.time()` it
raises `AttributeError`. -/
def PyTimeVal.isoformat : PyTimeVal → Except String String
  | .datetimeVal s => .ok s
  | .floatVal => .error "AttributeError: float object has no attribute isoformat"

/-- Outcome of `s3.head_object`: the `Metadata` dict and `LastModified`. -/
structure HeadObjectResult where
  metadata : List (String × String)
  lastModified : Option PyTimeVal
deriving DecidableEq

/-- Collaborator outcomes for one run of the lf1 `lambda_handler`. -/
structure LF1Env where
  /-- `s3.head_object(Bucket, Key)` outcome. -/
  headObject : String → String → Except String HeadObjectResult
  /-- `rekognition.detect_labels` outcome: the label `Name`s, in order. -/
  detectLabels : String → String → Except String (List String)
  /-- Whether the module-level `awsauth` was initialised. -/
  awsauthOk : Bool
  /-- `requests.put` outcome: a connection error, or the HTTP status code. -/
  putStatusCode : Except String Nat

/-- `custom_labels` computed from the raw metadata string in lf1:
split on commas, keep tokens whose strip is non-empty, strip and lowercase. -/
def customLabelsOf (rawLabels : String) : List String :=
  if rawLabels ≠ "" then
    ((pySplitComma rawLabels).filter (fun l => pyStrip l ≠ "")).map
      (fun l => pyLower (pyStrip l))
  else []

/-- Python `list(set(l))`.  Set iteration order is unspecified in Python; we
fix the canonical representative `List.dedup`.  All claims about label
contents are stated at the set (`toFinset`) level. -/
def pySetList (l : List String) : List String := l.dedup

/-- `all_labels = list(set(rekognition_labels + custom_labels))` in lf1, where
`rekognition_labels` are the classifier names lowercased. -/
def lf1AllLabels (names : List String) (rawLabels : String) : List String :=
  pySetList ((names.map pyLower) ++ customLabelsOf rawLabels)

/-- Step 2 of the lf1 handler: metadata fetch, custom labels and created
timestamp, including its internal try/except.  The `except` branch evaluates
`time.time().isoformat()`; an error escaping here is an uncaught Python
exception crashing the invocation. -/
def lf1MetadataStep (env : LF1Env) (bucket key : String) :
    Except String (List String × String) :=
  let tryBody : Except String (List String × String) :=
    match env.headObject bucket key with
    | .error e => .error e
    | .ok head =>
      let rawLabels := dictGet head.metadata "x-amz-meta-customlabels" ""
      let custom := customLabelsOf rawLabels
      match ((head.lastModified).getD PyTimeVal.floatVal).isoformat with
      | .error e => .error e
      | .ok ts => .ok (custom, ts)
  match tryBody with
  | .ok r => .ok r
  | .error _ =>
    match PyTimeVal.floatVal.isoformat with
    | .ok ts => .ok ([], ts)
    | .error e => .error e

/-- `key.replace("/", "_")`: a single-character pattern replace is a
character map. -/
def slashToUnderscore (c : Char) : Char := if c = '/' then '_' else c

/-- The lf1 document id: `key.replace("/", "_")`. -/
def lf1DocId (key : String) : String := ⟨key.data.map slashToUnderscore⟩

/-- HTTP-style response of the lf1 handler (`json.dumps` of the message body
elided: `body` is the message). -/
structure LF1Resp where
  statusCode : Nat
  body : String
deriving DecidableEq

/-- The lf1 `lambda_handler`, as a function of collaborator outcomes and the
index state.  The result is the uncaught Python exception, or the HTTP
response together with the new index state and, when the index accepted the
document (PUT status 200 or 201), the id and document written. -/
def lf1_lambda_handler (env : LF1Env) (event : S3Event) (idx : OSIndex) :
    Except String (LF1Resp × OSIndex × Option (String × Document)) :=
  match event.records.head? with
  | none => .ok (⟨400, "Invalid event"⟩, idx, none)
  | some record =>
    let bucket := record.bucketName
    let key := unquotePlus record.objectKey
    match lf1MetadataStep env bucket key with
    | .error e => .error e
    | .ok (customLabels, createdTimestamp) =>
      match env.detectLabels bucket key with
      | .error _ => .ok (⟨500, "Rekognition failed"⟩, idx, none)
      | .ok names =>
        let document : Document :=
          ⟨key, bucket, createdTimestamp,
            pySetList ((names.map pyLower) ++ customLabels)⟩
        let docId := lf1DocId key
        if env.awsauthOk = false then
          .ok (⟨500, "Authentication error"⟩, idx, none)
        else
          match env.putStatusCode with
          | .error _ => .ok (⟨500, "OpenSearch indexing failed"⟩, idx, none)
          | .ok status =>
            if status = 200 ∨ status = 201 then
              .ok (⟨200, "Photo indexed successfully"⟩,
                osUpsert idx docId document, some (docId, document))
            else
              .ok (⟨status, "Failed to index photo in OpenSearch"⟩, idx, none)

/-- The index state left by one lf1 run (a crashed run leaves it unchanged). -/
def lf1IndexAfter (env : LF1Env) (event : S3Event) (idx : OSIndex) : OSIndex :=
  match lf1_lambda_handler env event idx with
  | .ok (_, idx2, _) => idx2
  | .error _ => idx

/-! ## Claim C3: the objectKey-to-document-identifier transform -/

theorem slashToUnderscore_inj {a b : Char} (ha : a ≠ '_') (hb : b ≠ '_')
    (h : slashToUnderscore a = slashToUnderscore b) : a = b := by
  unfold slashToUnderscore at h
  split_ifs at h with h1 h2 h2
  · rw [h1, h2]
  · exact absurd h.symm hb
  · exact absurd h ha
  · exact h

theorem map_slashToUnderscore_inj (l1 : List Char) : ∀ l2 : List Char,
    '_' ∉ l1 → '_' ∉ l2 →
    l1.map slashToUnderscore = l2.map slashToUnderscore → l1 = l2 := by
  induction l1 with
  | nil =>
    intro l2 _ _ h
    cases l2 with
    | nil => rfl
    | cons b t => simp at h
  | cons a t ih =>
    intro l2 h1 h2 h
    cases l2 with
    | nil => simp at h
    | cons b t2 =>
      simp only [List.map_cons, List.cons.injEq] at h
      have ha : a ≠ '_' := by
        intro hc
        exact h1 (by simp [hc])
      have hb : b ≠ '_' := by
        intro hc
        exact h2 (by simp [hc])
      have hab : a = b := slashToUnderscore_inj ha hb h.1
      have ht : t = t2 :=
        ih t2 (fun hm => h1 (List.mem_cons_of_mem _ hm))
          (fun hm => h2 (List.mem_cons_of_mem _ hm)) h.2
      rw [hab, ht]

/-- Claim C3 (amended): the document-identifier transform `lf1DocId`
(`key.replace("/", "_")`) is deterministic, and it is injective on object keys
that do not contain the substitute character `'_'`; it is not injective in
general, since a `/` in one key can collide with a pre-existing `_` in
another. -/
theorem c3_theorem (k1 k2 : String)
    (h1 : '_' ∉ k1.data) (h2 : '_' ∉ k2.data)
    (heq : lf1DocId k1 = lf1DocId k2) : k1 = k2 := by
  cases k1 with
  | mk d1 =>
    cases k2 with
    | mk d2 =>
      have hmap : d1.map slashToUnderscore = d2.map slashToUnderscore := by
        have hd := congrArg String.data heq
        simpa [lf1DocId] using hd
      have : d1 = d2 := map_slashToUnderscore_inj d1 d2 h1 h2 hmap
      rw [this]

/-- Claim C3 witness: the amended theorem applied at a concrete key. -/
theorem c3_witness : ("a/b.jpg" : String) = "a/b.jpg" :=
  c3_theorem "a/b.jpg" "a/b.jpg" (by decide) (by decide) rfl

/-- Claim C3 counterexample: the two object keys named by the claim map to the
same document identifier, so the transform is not injective and the pair
collides, contrary to the claim. -/
theorem c3_counterexample :
    lf1DocId "family/trip.jpg" = lf1DocId "family_trip.jpg" ∧
      ("family/trip.jpg" : String) ≠ "family_trip.jpg" := by
  constructor
  · rfl
  · decide

/-! ## Claim C2: label normalization in lf1 -/

/-- Claim C2 (amended, lf1 half): in the backend lf1 pipeline the document's
label list is the duplicate-free set union of the normalized custom-label
tokens and the lowercased classifier names, and the claim's worked example
yields exactly the three labels cat, dog, tree. -/
theorem c2_theorem (names : List String) (rawLabels : String) :
    (lf1AllLabels names rawLabels).toFinset
        = (names.map pyLower).toFinset ∪ (customLabelsOf rawLabels).toFinset ∧
      (lf1AllLabels names rawLabels).Nodup ∧
      (lf1AllLabels ["Dog", "Tree"] "Cat, dog , cat").toFinset
        = ({"cat", "dog", "tree"} : Finset String) ∧
      (lf1AllLabels ["Dog", "Tree"] "Cat, dog , cat").length = 3 := by
  refine ⟨?_, ?_, by decide, by decide⟩
  · ext a
    simp [lf1AllLabels, pySetList]
  · exact List.nodup_dedup _

/-! ## Claim C1: idempotent ingestion in lf1 -/

/-- The document the lf1 handler writes for a given record when the metadata
fetch and the classifier both succeed. -/
def lf1WrittenDoc (record : S3Record) (head : HeadObjectResult) (ts : String)
    (names : List String) : Document :=
  ⟨unquotePlus record.objectKey, record.bucketName, ts,
    lf1AllLabels names (dictGet head.metadata "x-amz-meta-customlabels" "")⟩

/-- Claim C1 (amended, lf1 half): when the metadata fetch succeeds with a
datetime `LastModified`, the classifier succeeds, and the index accepts the
PUT, the backend lf1 pipeline writes by upsert at the deterministic id
`lf1DocId key`; running it twice leaves the index exactly as after the first
run, the deterministic id holds the (identical) document, and no key other
than the deterministic id is touched (the write is never an append). -/
theorem c1_theorem (env : LF1Env) (event : S3Event) (idx : OSIndex)
    (record : S3Record) (head : HeadObjectResult) (ts : String)
    (names : List String)
    (hrec : event.records.head? = some record)
    (hhead : env.headObject record.bucketName (unquotePlus record.objectKey)
      = .ok head)
    (hlm : head.lastModified = some (PyTimeVal.datetimeVal ts))
    (hdet : env.detectLabels record.bucketName (unquotePlus record.objectKey)
      = .ok names)
    (hauth : env.awsauthOk = true)
    (hput : env.putStatusCode = .ok 200) :
    lf1_lambda_handler env event idx =
      .ok (⟨200, "Photo indexed successfully"⟩,
        osUpsert idx (lf1DocId (unquotePlus record.objectKey))
          (lf1WrittenDoc record head ts names),
        some (lf1DocId (unquotePlus record.objectKey),
          lf1WrittenDoc record head ts names)) ∧
      lf1IndexAfter env event (lf1IndexAfter env event idx)
        = lf1IndexAfter env event idx ∧
      (∀ k, k ≠ lf1DocId (unquotePlus record.objectKey) →
        lf1IndexAfter env event idx k = idx k) := by
  have hmeta : lf1MetadataStep env record.bucketName (unquotePlus record.objectKey)
      = .ok (customLabelsOf (dictGet head.metadata "x-amz-meta-customlabels" ""), ts) := by
    simp [lf1MetadataStep, hhead, hlm, PyTimeVal.isoformat]
  have hrun : ∀ j : OSIndex, lf1_lambda_handler env event j =
      .ok (⟨200, "Photo indexed successfully"⟩,
        osUpsert j (lf1DocId (unquotePlus record.objectKey))
          (lf1WrittenDoc record head ts names),
        some (lf1DocId (unquotePlus record.objectKey),
          lf1WrittenDoc record head ts names)) := by
    intro j
    simp [lf1_lambda_handler, hrec, hmeta, hdet, hauth, hput, lf1WrittenDoc,
      lf1AllLabels]
  refine ⟨hrun idx, ?_, ?_⟩
  · simp [lf1IndexAfter, hrun, osUpsert_idem]
  · intro k hk
    simp [lf1IndexAfter, hrun, osUpsert, hk]

/-- Collaborator outcomes for the C1 witness: metadata and classifier succeed
with fixed data, the index accepts the PUT. -/
def c1Env : LF1Env :=
  ⟨fun _ _ => Except.ok
      ⟨[("x-amz-meta-customlabels", "Cat, dog , cat")],
        some (PyTimeVal.datetimeVal "2024-01-01T00:00:00")⟩,
    fun _ _ => Except.ok ["Dog", "Tree"],
    true,
    Except.ok 200⟩

/-- The triggering notification for the C1 witness. -/
def c1Event : S3Event := ⟨[⟨"photo-bucket", "family/trip.jpg"⟩]⟩

/-- Claim C1 witness: the amended theorem applied at a concrete run. -/
theorem c1_witness :
    lf1_lambda_handler c1Env c1Event (fun _ => none) =
      .ok (⟨200, "Photo indexed successfully"⟩,
        osUpsert (fun _ => none) (lf1DocId (unquotePlus "family/trip.jpg"))
          (lf1WrittenDoc ⟨"photo-bucket", "family/trip.jpg"⟩
            ⟨[("x-amz-meta-customlabels", "Cat, dog , cat")],
              some (PyTimeVal.datetimeVal "2024-01-01T00:00:00")⟩
            "2024-01-01T00:00:00" ["Dog", "Tree"]),
        some (lf1DocId (unquotePlus "family/trip.jpg"),
          lf1WrittenDoc ⟨"photo-bucket", "family/trip.jpg"⟩
            ⟨[("x-amz-meta-customlabels", "Cat, dog , cat")],
              some (PyTimeVal.datetimeVal "2024-01-01T00:00:00")⟩
            "2024-01-01T00:00:00" ["Dog", "Tree"])) ∧
      lf1IndexAfter c1Env c1Event (lf1IndexAfter c1Env c1Event (fun _ => none))
        = lf1IndexAfter c1Env c1Event (fun _ => none) ∧
      (∀ k, k ≠ lf1DocId (unquotePlus "family/trip.jpg") →
        lf1IndexAfter c1Env c1Event (fun _ => none) k = none) :=
  c1_theorem c1Env c1Event (fun _ => none) ⟨"photo-bucket", "family/trip.jpg"⟩
    ⟨[("x-amz-meta-customlabels", "Cat, dog , cat")],
      some (PyTimeVal.datetimeVal "2024-01-01T00:00:00")⟩
    "2024-01-01T00:00:00" ["Dog", "Tree"] rfl rfl rfl rfl rfl rfl

/-! ## Claim C6: metadata-fetch failure in lf1 -/

/-- Claim C6 (code bug): when the metadata fetch raises, the lf1 handler's
`except` branch evaluates `time.time().isoformat()`, which raises
`AttributeError` (a float has no `isoformat`), so the run crashes with an
uncaught exception before the classifier is ever invoked — instead of
continuing with empty custom labels and the current processing time as the
spec (and the handler's own comment) intend. -/
theorem c6_theorem (env : LF1Env) (event : S3Event) (idx : OSIndex)
    (record : S3Record) (e : String)
    (hrec : event.records.head? = some record)
    (hhead : env.headObject record.bucketName (unquotePlus record.objectKey)
      = .error e) :
    lf1_lambda_handler env event idx =
      .error "AttributeError: float object has no attribute isoformat" := by
  simp [lf1_lambda_handler, hrec, lf1MetadataStep, hhead, PyTimeVal.isoformat]

/-- Collaborator outcomes for the C6 witness: the metadata fetch raises. -/
def c6Env : LF1Env :=
  ⟨fun _ _ => Except.error "ClientError: AccessDenied",
    fun _ _ => Except.ok ["Dog"],
    true,
    Except.ok 200⟩

/-- Claim C6 witness: the theorem applied at a concrete failing run. -/
theorem c6_witness :
    lf1_lambda_handler c6Env ⟨[⟨"photo-bucket", "pic.jpg"⟩]⟩ (fun _ => none) =
      .error "AttributeError: float object has no attribute isoformat" :=
  c6_theorem c6Env ⟨[⟨"photo-bucket", "pic.jpg"⟩]⟩ (fun _ => none)
    ⟨"photo-bucket", "pic.jpg"⟩ "ClientError: AccessDenied" rfl rfl

/-! ## Claim C7: the lf1 status contract -/

/-- Claim C7 (amended): for every lf1 run whose metadata step does not crash
(malformed notification, or metadata fetch succeeding with a datetime
`LastModified`), the returned statusCode is 200, 400, 500, or the index
write's own HTTP status passed through verbatim, and it is 200 exactly when
the index accepted the document.  The claim's {200, 400, 500} exhaustiveness
fails: a non-success write status (e.g. 403) is returned as-is, and a
metadata-fetch failure crashes the run with no status at all. -/
theorem c7_theorem (env : LF1Env) (event : S3Event) (idx : OSIndex)
    (hsafe : event.records.head? = none ∨
      ∃ record head ts, event.records.head? = some record ∧
        env.headObject record.bucketName (unquotePlus record.objectKey)
          = .ok head ∧
        head.lastModified = some (PyTimeVal.datetimeVal ts)) :
    ∃ resp idx2 w, lf1_lambda_handler env event idx = .ok (resp, idx2, w) ∧
      (resp.statusCode = 200 ∨ resp.statusCode = 400 ∨ resp.statusCode = 500 ∨
        env.putStatusCode = .ok resp.statusCode) ∧
      (resp.statusCode = 200 ↔ w.isSome = true) := by
  rcases hsafe with hnone | ⟨record, head, ts, hrec, hhead, hlm⟩
  · refine ⟨⟨400, "Invalid event"⟩, idx, none, ?_, ?_, ?_⟩
    · simp [lf1_lambda_handler, hnone]
    · simp
    · simp
  · have hmeta : lf1MetadataStep env record.bucketName (unquotePlus record.objectKey)
        = .ok (customLabelsOf (dictGet head.metadata "x-amz-meta-customlabels" ""), ts) := by
      simp [lf1MetadataStep, hhead, hlm, PyTimeVal.isoformat]
    rcases hdet : env.detectLabels record.bucketName (unquotePlus record.objectKey)
      with e | names
    · exact ⟨⟨500, "Rekognition failed"⟩, idx, none,
        by simp [lf1_lambda_handler, hrec, hmeta, hdet], by simp, by simp⟩
    · rcases hauth : env.awsauthOk with _ | _
      · exact ⟨⟨500, "Authentication error"⟩, idx, none,
          by simp [lf1_lambda_handler, hrec, hmeta, hdet, hauth], by simp, by simp⟩
      · rcases hput : env.putStatusCode with e | status
        · exact ⟨⟨500, "OpenSearch indexing failed"⟩, idx, none,
            by simp [lf1_lambda_handler, hrec, hmeta, hdet, hauth, hput],
            by simp, by simp⟩
        · by_cases hok : status = 200 ∨ status = 201
          · refine ⟨⟨200, "Photo indexed successfully"⟩,
              osUpsert idx (lf1DocId (unquotePlus record.objectKey))
                ⟨unquotePlus record.objectKey, record.bucketName, ts,
                  pySetList ((names.map pyLower) ++
                    customLabelsOf (dictGet head.metadata "x-amz-meta-customlabels" ""))⟩,
              some (lf1DocId (unquotePlus record.objectKey),
                ⟨unquotePlus record.objectKey, record.bucketName, ts,
                  pySetList ((names.map pyLower) ++
                    customLabelsOf (dictGet head.metadata "x-amz-meta-customlabels" ""))⟩),
              by simp [lf1_lambda_handler, hrec, hmeta, hdet, hauth, hput, hok],
              by simp, by simp⟩
          · refine ⟨⟨status, "Failed to index photo in OpenSearch"⟩, idx, none,
              by simp [lf1_lambda_handler, hrec, hmeta, hdet, hauth, hput, hok],
              ?_, ?_⟩
            · right; right; right
              simp [hput]
            · simp
              intro h
              exact absurd (Or.inl h) hok

/-- Collaborator outcomes for the C7 witness. -/
def c7Env : LF1Env :=
  ⟨fun _ _ => Except.ok ⟨[], some (PyTimeVal.datetimeVal "2024-01-01T00:00:00")⟩,
    fun _ _ => Except.ok ["Dog"],
    true,
    Except.ok 200⟩

/-- Claim C7 witness: the amended theorem applied at a concrete run. -/
theorem c7_witness :
    ∃ resp idx2 w,
      lf1_lambda_handler c7Env ⟨[⟨"photo-bucket", "pic.jpg"⟩]⟩ (fun _ => none)
        = .ok (resp, idx2, w) ∧
      (resp.statusCode = 200 ∨ resp.statusCode = 400 ∨ resp.statusCode = 500 ∨
        c7Env.putStatusCode = .ok resp.statusCode) ∧
      (resp.statusCode = 200 ↔ w.isSome = true) :=
  c7_theorem c7Env ⟨[⟨"photo-bucket", "pic.jpg"⟩]⟩ (fun _ => none)
    (Or.inr ⟨⟨"photo-bucket", "pic.jpg"⟩,
      ⟨[], some (PyTimeVal.datetimeVal "2024-01-01T00:00:00")⟩,
      "2024-01-01T00:00:00", rfl, rfl, rfl⟩)

/-- Status code of an lf1 run, `none` when the run crashed. -/
def lf1StatusOf (r : Except String (LF1Resp × OSIndex × Option (String × Document))) :
    Option Nat :=
  match r with
  | .ok (resp, _, _) => some resp.statusCode
  | .error _ => none

/-- Collaborator outcomes for the C7 counterexample: the index rejects the
PUT with HTTP 403. -/
def c7BadEnv : LF1Env :=
  ⟨fun _ _ => Except.ok ⟨[], some (PyTimeVal.datetimeVal "2024-01-01T00:00:00")⟩,
    fun _ _ => Except.ok ["Dog"],
    true,
    Except.ok 403⟩

/-- Claim C7 counterexample: when the index write returns HTTP 403, the lf1
handler returns statusCode 403, which is none of 200, 400, 500 — the write's
status is passed through verbatim, refuting the claimed exhaustiveness. -/
theorem c7_counterexample :
    lf1StatusOf
        (lf1_lambda_handler c7BadEnv ⟨[⟨"photo-bucket", "pic.jpg"⟩]⟩ (fun _ => none))
      = some 403 ∧
      (403 : Nat) ≠ 200 ∧ (403 : Nat) ≠ 400 ∧ (403 : Nat) ≠ 500 := by
  refine ⟨?_, by decide, by decide, by decide⟩
  rfl

/-! ## The Lex response model (shared by all search handlers) -/

/-- A Lex slot's value object: interpreted and original forms. -/
structure LexSlotValue where
  interpretedValue : Option String
  originalValue : Option String
deriving DecidableEq

/-- A slot entry: the dict stored under a slot name, carrying its `value`
field (itself possibly Python `None`). -/
structure LexSlot where
  value : Option LexSlotValue
deriving DecidableEq

/-- The parts of a `recognize_text` response the handlers read: the intent
name and the slots dict.  An absent entry and an entry stored as Python
`None` both make `slots.get(name)` falsy; the pair's second component being
`none` models the stored-`None` case. -/
structure LexResponse where
  intentName : Option String
  slots : List (String × Option LexSlot)
deriving DecidableEq

/-- Python `slots.get(name)`: `none` when the key is missing or stored as
`None`. -/
def slotsGet (slots : List (String × Option LexSlot)) (name : String) :
    Option LexSlot :=
  match slots.find? (fun p => p.1 == name) with
  | some p => p.2
  | none => none

/-- An API Gateway event as the search handlers see it:
`queryStringParameters` is `none` when absent or `None`. -/
structure ApiEvent where
  queryStringParameters : Option (List (String × String))
deriving DecidableEq

/-! ## index.py: handle_indexing -/

/-- Collaborator outcomes for one run of index.py `handle_indexing`. -/
structure IdxIngEnv where
  /-- `rekognition.detect_labels` outcome: the label `Name`s, in order. -/
  detectLabels : String → String → Except String (List String)
  /-- `s3.head_object` outcome: the `Metadata` dict. -/
  headObject : String → String → Except String (List (String × String))
  /-- `time.strftime("%Y-%m-%dT%H:%M:%S", time.gmtime())`. -/
  nowStr : String
  /-- The fresh document id OpenSearch assigns to the `POST /photos/_doc`. -/
  autoId : String
  /-- `http.request('POST', ...)` outcome (connection errors only). -/
  postResult : Except String Unit

/-- The label list built by index.py `handle_indexing`: classifier names kept
verbatim, comma-split custom tokens stripped but neither lowercased nor
deduplicated, and empty tokens kept. -/
def idxPyLabels (names : List String) (custom : String) : List String :=
  if custom ≠ "" then names ++ (pySplitComma custom).map pyStrip else names

/-- index.py `handle_indexing`, as a function of collaborator outcomes and
the index state.  The whole body is one try/except: any failure returns 500
and leaves the index unchanged.  The write is `POST /photos/_doc` with no
document id in the URL, so each successful run creates a new document under
the fresh id OpenSearch assigns. -/
def handle_indexing (env : IdxIngEnv) (event : S3Event) (idx : OSIndex) :
    LF1Resp × OSIndex :=
  match event.records.head? with
  | none => (⟨500, "Indexing Error"⟩, idx)
  | some record =>
    let bucket := record.bucketName
    let key := unquotePlus record.objectKey
    match env.detectLabels bucket key with
    | .error e => (⟨500, e⟩, idx)
    | .ok names =>
      match env.headObject bucket key with
      | .error e => (⟨500, e⟩, idx)
      | .ok metadata =>
        let custom := dictGet metadata "customlabels" ""
        let document : Document :=
          ⟨key, bucket, env.nowStr, idxPyLabels names custom⟩
        match env.postResult with
        | .error e => (⟨500, e⟩, idx)
        | .ok _ => (⟨200, "Indexed"⟩, osUpsert idx env.autoId document)

/-- Collaborator outcomes for the C1 counterexample, parameterised by the
auto-generated id the index assigns to this run's POST. -/
def c1IdxEnv (autoId : String) : IdxIngEnv :=
  ⟨fun _ _ => Except.ok ["Dog"], fun _ _ => Except.ok [],
    "2024-01-01T00:00:00", autoId, Except.ok ()⟩

/-- Claim C1 counterexample: the index.py ingestion pipeline POSTs without a
document id, so ingesting the same object twice (classifier returning the
same labels both times) leaves two documents in the index, under two distinct
auto-generated ids — not one document at a deterministic identifier. -/
theorem c1_counterexample :
    (let run1 := handle_indexing (c1IdxEnv "autoId1") ⟨[⟨"bkt", "pic.jpg"⟩]⟩
        (fun _ => none)
     let run2 := handle_indexing (c1IdxEnv "autoId2") ⟨[⟨"bkt", "pic.jpg"⟩]⟩ run1.2
     run2.2 "autoId1" = some ⟨"pic.jpg", "bkt", "2024-01-01T00:00:00", ["Dog"]⟩ ∧
       run2.2 "autoId2" = some ⟨"pic.jpg", "bkt", "2024-01-01T00:00:00", ["Dog"]⟩ ∧
       run1.2 "autoId2" = none ∧
       ("autoId1" : String) ≠ "autoId2") := by
  decide

/-- Claim C2 counterexample: index.py `handle_indexing` does not normalize —
on the claim's worked example it stores the five labels
Dog, Tree, Cat, dog, cat (case preserved, duplicates kept), not the
three-element set cat, dog, tree. -/
theorem c2_counterexample :
    idxPyLabels ["Dog", "Tree"] "Cat, dog , cat"
        = ["Dog", "Tree", "Cat", "dog", "cat"] ∧
      (idxPyLabels ["Dog", "Tree"] "Cat, dog , cat").toFinset
        ≠ ({"cat", "dog", "tree"} : Finset String) := by
  decide

/-! ## index.py: handle_search -/

/-- One search hit's `_source`, as the index.py search loop reads it. -/
structure IdxHit where
  bucket : String
  objectKey : String
  labels : List String
deriving DecidableEq

/-- The json-decoded body of the index.py search call: whether the `hits` key
is present, and the hit sources when it is. -/
structure IdxEsData where
  hits : Option (List IdxHit)
deriving DecidableEq

/-- Collaborator outcomes for one run of index.py `handle_search`. -/
structure IdxSearchEnv where
  /-- `recognize_text` outcome for the query text. -/
  lex : String → Except String LexResponse
  /-- Search-index GET plus `json.loads`, per query keyword. -/
  es : String → Except String IdxEsData

/-- A search result item: the public S3 URL and the hit's labels. -/
structure ResultItem where
  url : String
  labels : List String
deriving DecidableEq

/-- Response of index.py `handle_search` (`json.dumps` elided; on failure the
body is an error object, modelled by `errorMessage`). -/
structure IdxSearchResp where
  statusCode : Nat
  items : List ResultItem
  errorMessage : Option String
deriving DecidableEq

/-- The public locator: `https://{bucket}.s3.amazonaws.com/{key}`. -/
def imgUrl (bucket key : String) : String :=
  "https://" ++ bucket ++ ".s3.amazonaws.com/" ++ key

/-- The locator computed for a hit. -/
def hitLocator (hit : IdxHit) : String := imgUrl hit.bucket hit.objectKey

/-- The result-assembly loop of index.py `handle_search`: drop a hit when a
target bucket is configured and the hit's bucket differs; drop a hit whose
computed URL is already in `seen`; otherwise emit the item and remember the
URL. -/
def assembleResults (targetBucket : String) :
    List String → List IdxHit → List ResultItem
  | _, [] => []
  | seen, hit :: rest =>
    if targetBucket ≠ "" ∧ hit.bucket ≠ targetBucket then
      assembleResults targetBucket seen rest
    else if hitLocator hit ∈ seen then
      assembleResults targetBucket seen rest
    else
      ⟨hitLocator hit, hit.labels⟩ ::
        assembleResults targetBucket (hitLocator hit :: seen) rest

/-- index.py `handle_search` keyword selection: keep the raw query unless the
Lex response carries a non-empty slots dict whose `keywords` slot has a
truthy `value`; the direct `['originalValue']` indexing raises `KeyError`
when that field is absent. -/
def idxKeywordOf (q : String) (r : LexResponse) : Except String String :=
  if r.slots ≠ [] then
    match slotsGet r.slots "keywords" with
    | none => .ok q
    | some slot =>
      match slot.value with
      | none => .ok q
      | some v =>
        match v.originalValue with
        | none => .error "KeyError: originalValue"
        | some orig => .ok orig
  else .ok q

/-- index.py `handle_search`, as a function of collaborator outcomes: the
response plus the list of queries issued to the search index.  The whole body
is one try/except returning 500 on any raise; note the `'dogs'` default when
the `q` parameter is absent. -/
def handle_search (env : IdxSearchEnv) (targetBucket : String)
    (event : ApiEvent) : IdxSearchResp × List String :=
  match event.queryStringParameters with
  | none => (⟨500, [], some "AttributeError: NoneType has no attribute get"⟩, [])
  | some params =>
    let q := (dictFind params "q").getD "dogs"
    match env.lex q with
    | .error e => (⟨500, [], some e⟩, [])
    | .ok lexResp =>
      match idxKeywordOf q lexResp with
      | .error e => (⟨500, [], some e⟩, [])
      | .ok keyword =>
        match env.es keyword with
        | .error e => (⟨500, [], some e⟩, [keyword])
        | .ok data =>
          match data.hits with
          | none => (⟨200, [], none⟩, [keyword])
          | some hitList =>
            (⟨200, assembleResults targetBucket [] hitList, none⟩, [keyword])

/-! ## Claim C9: result assembly -/

/-- Restatement of the spec's allow-list filter: keep a hit when no allow-list
is configured or its container is in it. -/
def specAllowedHits (targetBucket : String) (hits : List IdxHit) : List IdxHit :=
  hits.filter (fun h => targetBucket == "" || h.bucket == targetBucket)

/-- Restatement of the spec's dedup: keep the first occurrence of each
locator, preserving input order. -/
def dedupFirstByLocator : List IdxHit → List IdxHit
  | [] => []
  | h :: t =>
    h :: dedupFirstByLocator (t.filter (fun h2 => hitLocator h2 != hitLocator h))
termination_by l => l.length
decreasing_by
  simp only [List.length_cons]
  exact Nat.lt_succ_of_le (List.length_filter_le _ _)

/-- Restatement of the spec's result assembly: allow-list filter, then dedup
by locator keeping first occurrences in order, then attach each hit's labels
to its locator. -/
def specAssemble (targetBucket : String) (hits : List IdxHit) : List ResultItem :=
  (dedupFirstByLocator (specAllowedHits targetBucket hits)).map
    (fun h => ⟨hitLocator h, h.labels⟩)

theorem assembleResults_spec (targetBucket : String) (hits : List IdxHit) :
    ∀ seen : List String,
      assembleResults targetBucket seen hits
        = (dedupFirstByLocator
            ((specAllowedHits targetBucket hits).filter
              (fun h => decide (hitLocator h ∉ seen)))).map
            (fun h => (⟨hitLocator h, h.labels⟩ : ResultItem)) := by
  induction hits with
  | nil =>
    intro seen
    simp [assembleResults, specAllowedHits, dedupFirstByLocator]
  | cons hit rest ih =>
    intro seen
    by_cases hdrop : targetBucket ≠ "" ∧ hit.bucket ≠ targetBucket
    · have hcond : (targetBucket == "" || hit.bucket == targetBucket) = false := by
        rcases hdrop with ⟨h1, h2⟩
        simp [h1, h2]
      rw [assembleResults, if_pos hdrop, ih seen]
      simp [specAllowedHits, hcond]
    · have hcond : (targetBucket == "" || hit.bucket == targetBucket) = true := by
        rcases not_and_or.mp hdrop with h | h
        · simp [not_not.mp h]
        · simp [not_not.mp h]
      have hfil : specAllowedHits targetBucket (hit :: rest)
          = hit :: specAllowedHits targetBucket rest := by
        simp only [specAllowedHits, List.filter_cons, hcond]
        simp
      by_cases hseen : hitLocator hit ∈ seen
      · rw [assembleResults, if_neg hdrop, if_pos hseen, ih seen, hfil]
        have hdropSeen :
            List.filter (fun h => decide (hitLocator h ∉ seen))
                (hit :: specAllowedHits targetBucket rest)
              = List.filter (fun h => decide (hitLocator h ∉ seen))
                  (specAllowedHits targetBucket rest) := by
          simp [hseen]
        rw [hdropSeen]
      · rw [assembleResults, if_neg hdrop, if_neg hseen,
          ih (hitLocator hit :: seen), hfil]
        have hkeepSeen :
            List.filter (fun h => decide (hitLocator h ∉ seen))
                (hit :: specAllowedHits targetBucket rest)
              = hit :: List.filter (fun h => decide (hitLocator h ∉ seen))
                  (specAllowedHits targetBucket rest) := by
          simp [hseen]
        rw [hkeepSeen, dedupFirstByLocator]
        simp only [List.map_cons]
        congr 1
        congr 1
        congr 1
        rw [List.filter_filter]
        apply List.filter_congr
        intro x _
        by_cases h1 : hitLocator x = hitLocator hit <;>
          by_cases h2 : hitLocator x ∈ seen <;>
          simp [h1, h2]

/-- Claim C9: the index.py result assembly equals the spec's description —
build the locator from container and key, drop hits whose container is not in
the configured allow-list, deduplicate on the locator with the first
occurrence winning and input order preserved, and attach each kept hit's
label set. -/
theorem c9_theorem (targetBucket : String) (hits : List IdxHit) :
    assembleResults targetBucket [] hits = specAssemble targetBucket hits := by
  have h := assembleResults_spec targetBucket hits []
  simpa [specAssemble] using h

/-! ## backend/lf2_deployment/lambda_function.py -/

/-- One hit of the lf2 search response (`_source` restricted to `objectKey`,
as requested by the query body). -/
structure EsHit where
  objectKey : String
deriving DecidableEq

/-- The lf2 search call's outcome when the request itself succeeded: the HTTP
status and the decoded hit sources (`.get('hits', {}).get('hits', [])`
defaults folded in). -/
structure EsResponse where
  status : Nat
  hits : List EsHit
deriving DecidableEq

/-- Collaborator outcomes for one run of the lf2 `lambda_handler`. -/
structure LF2Env where
  /-- `recognize_text` outcome for the query text. -/
  lex : String → Except String LexResponse
  /-- `requests.get` outcome for the joined keyword query string. -/
  es : String → Except String EsResponse

/-- backend `get_keywords_from_lex`: keywords from the `Keywords` slot of a
recognized `PhotoSearchIntent`, preferring the interpreted value, lowercased
and whitespace-tokenized; `[]` on any other intent and on an extractor
exception. -/
def get_keywords_from_lex (resp : Except String LexResponse) : List String :=
  match resp with
  | .error _ => []
  | .ok r =>
    if r.intentName = some "PhotoSearchIntent" then
      match slotsGet r.slots "Keywords" with
      | none => []
      | some slot =>
        let keywordString :=
          match slot.value with
          | none => ""
          | some v =>
            if pyTruthyStr v.interpretedValue then
              pyLower (v.interpretedValue.getD "")
            else if pyTruthyStr v.originalValue then
              pyLower (v.originalValue.getD "")
            else ""
        ((pySplitWs keywordString).filter (fun k => pyStrip k ≠ "")).map pyStrip
    else []

/-- backend `search_elasticsearch`: returns the photo keys and the queries
actually issued to the index.  An empty keyword list short-circuits with no
call; a raised request or a non-success status (`raise_for_status`) is caught
and yields `[]`. -/
def search_elasticsearch (env : LF2Env) (keywords : List String) :
    List String × List String :=
  if keywords = [] then ([], [])
  else
    let searchQuery := pyJoinSpace keywords
    match env.es searchQuery with
    | .error _ => ([], [searchQuery])
    | .ok resp =>
      if 400 ≤ resp.status then ([], [searchQuery])
      else (resp.hits.map (fun h => h.objectKey), [searchQuery])

/-- Response of the lf2 handler (`json.dumps` elided: `body` is the list of
S3 object keys). -/
structure LF2Resp where
  statusCode : Nat
  body : List String
deriving DecidableEq

/-- backend lf2 `lambda_handler`: the response plus the queries issued to the
search index.  A missing or `None` `queryStringParameters`, or a missing `q`
key, is the caught TypeError/KeyError branch. -/
def lf2_lambda_handler (env : LF2Env) (event : ApiEvent) :
    LF2Resp × List String :=
  match event.queryStringParameters with
  | none => (⟨200, []⟩, [])
  | some params =>
    match dictFind params "q" with
    | none => (⟨200, []⟩, [])
    | some queryText =>
      let keywords := get_keywords_from_lex (env.lex queryText)
      if keywords ≠ [] then
        let r := search_elasticsearch env keywords
        (⟨200, r.1⟩, r.2)
      else (⟨200, []⟩, [])

/-! ## Claim C4: no query, no results -/

/-- Claim C4 (amended, lf2 half): in the backend lf2 pipeline, a request
with no `queryStringParameters`, or no `q` parameter, or whose utterance
extracts zero keywords, returns statusCode 200 with an empty body and issues
no call to the search index. -/
theorem c4_theorem (env : LF2Env) (event : ApiEvent)
    (h : event.queryStringParameters = none ∨
      (∃ params, event.queryStringParameters = some params ∧
        dictFind params "q" = none) ∨
      (∃ params q, event.queryStringParameters = some params ∧
        dictFind params "q" = some q ∧
        get_keywords_from_lex (env.lex q) = [])) :
    lf2_lambda_handler env event = (⟨200, []⟩, []) := by
  rcases h with h | ⟨params, hp, hq⟩ | ⟨params, q, hp, hq, hk⟩
  · simp [lf2_lambda_handler, h]
  · simp [lf2_lambda_handler, hp, hq]
  · simp [lf2_lambda_handler, hp, hq, hk]

/-- Claim C4 witness: the amended theorem applied to a request with no query
parameter. -/
theorem c4_witness :
    lf2_lambda_handler
        ⟨fun _ => Except.error "down", fun _ => Except.error "down"⟩ ⟨none⟩
      = (⟨200, []⟩, []) :=
  c4_theorem ⟨fun _ => Except.error "down", fun _ => Except.error "down"⟩
    ⟨none⟩ (Or.inl rfl)

/-- Claim C4 counterexample: index.py `handle_search` substitutes the default
query `'dogs'` when the `q` parameter is absent and does issue a search-index
call with it, refuting "no query, no results, without issuing any call". -/
theorem c4_counterexample :
    (handle_search
        ⟨fun _ => Except.ok ⟨none, []⟩, fun _ => Except.ok ⟨some []⟩⟩ ""
        ⟨some []⟩).2 = ["dogs"] ∧
      (["dogs"] : List String) ≠ [] := by
  decide

/-! ## Claim C5: non-search intent yields empty results -/

/-- Claim C5 (amended, lf2 half): in the backend lf2 pipeline, when the
extractor recognizes an intent other than `PhotoSearchIntent`, the keyword
extractor returns no keywords and the handler returns 200 with an empty body,
issuing no search-index call at all. -/
theorem c5_theorem (env : LF2Env) (event : ApiEvent)
    (params : List (String × String)) (q : String) (r : LexResponse)
    (hp : event.queryStringParameters = some params)
    (hq : dictFind params "q" = some q)
    (hlex : env.lex q = .ok r)
    (hintent : r.intentName ≠ some "PhotoSearchIntent") :
    get_keywords_from_lex (env.lex q) = [] ∧
      lf2_lambda_handler env event = (⟨200, []⟩, []) := by
  have hk : get_keywords_from_lex (env.lex q) = [] := by
    rw [hlex]
    simp [get_keywords_from_lex, hintent]
  exact ⟨hk, by simp [lf2_lambda_handler, hp, hq, hk]⟩

/-- Collaborator outcomes for the C5 witness: Lex recognizes an unrelated
intent. -/
def c5Env : LF2Env :=
  ⟨fun _ => Except.ok ⟨some "GreetingIntent", []⟩,
    fun _ => Except.ok ⟨200, []⟩⟩

/-- Claim C5 witness: the amended theorem applied at a concrete run. -/
theorem c5_witness :
    get_keywords_from_lex (c5Env.lex "hello there") = [] ∧
      lf2_lambda_handler c5Env ⟨some [("q", "hello there")]⟩ = (⟨200, []⟩, []) :=
  c5_theorem c5Env ⟨some [("q", "hello there")]⟩ [("q", "hello there")]
    "hello there" ⟨some "GreetingIntent", []⟩ rfl rfl rfl (by decide)

/-- Claim C5 counterexample: index.py `handle_search` never checks the intent
name; with an unrelated intent and no filled slot it searches the index with
the raw utterance text, refuting "never falling back to searching the index
with the raw utterance text". -/
theorem c5_counterexample :
    (handle_search
        ⟨fun _ => Except.ok ⟨some "GreetingIntent", []⟩,
          fun _ => Except.ok ⟨some []⟩⟩ ""
        ⟨some [("q", "hello world")]⟩).2 = ["hello world"] ∧
      (["hello world"] : List String) ≠ [] := by
  decide

/-! ## Claim C8: search-index read failure degrades to empty -/

/-- The search-index call failed or returned a non-success status (the two
cases `raise_for_status` folds into a caught `RequestException`). -/
def esFailed (r : Except String EsResponse) : Prop :=
  match r with
  | .error _ => True
  | .ok resp => 400 ≤ resp.status

/-- Claim C8 (amended, lf2 half): in the backend lf2 pipeline, when the
search-index call for the run's joined keyword query fails or returns a
non-success status, the handler still returns statusCode 200 with an empty
body — a successful response carrying no items, not a propagated error. -/
theorem c8_theorem (env : LF2Env) (event : ApiEvent)
    (params : List (String × String)) (q : String)
    (hp : event.queryStringParameters = some params)
    (hq : dictFind params "q" = some q)
    (hfail : esFailed (env.es (pyJoinSpace (get_keywords_from_lex (env.lex q))))) :
    (lf2_lambda_handler env event).1 = ⟨200, []⟩ := by
  rcases hk : get_keywords_from_lex (env.lex q) with _ | ⟨k, ks⟩
  · simp [lf2_lambda_handler, hp, hq, hk]
  · rw [hk] at hfail
    rcases hes : env.es (pyJoinSpace (k :: ks)) with e | resp
    · simp [lf2_lambda_handler, hp, hq, hk, search_elasticsearch, hes]
    · rw [hes] at hfail
      have hstatus : 400 ≤ resp.status := hfail
      simp [lf2_lambda_handler, hp, hq, hk, search_elasticsearch, hes, hstatus]

/-- Collaborator outcomes for the C8 witness: Lex extracts a keyword, the
index call raises. -/
def c8Env : LF2Env :=
  ⟨fun _ => Except.ok
      ⟨some "PhotoSearchIntent",
        [("Keywords", some ⟨some ⟨some "dog", none⟩⟩)]⟩,
    fun _ => Except.error "ConnectionError"⟩

/-- Claim C8 witness: the amended theorem applied at a concrete run. -/
theorem c8_witness :
    (lf2_lambda_handler c8Env ⟨some [("q", "show me dogs")]⟩).1 = ⟨200, []⟩ :=
  c8_theorem c8Env ⟨some [("q", "show me dogs")]⟩ [("q", "show me dogs")]
    "show me dogs" rfl rfl True.intro

/-- Claim C8 counterexample: index.py `handle_search` propagates a failed
search-index request as a hard 500 error instead of degrading to an empty
success. -/
theorem c8_counterexample :
    (handle_search
        ⟨fun _ => Except.ok ⟨some "SearchIntent", []⟩,
          fun _ => Except.error "ConnectionError"⟩ ""
        ⟨some [("q", "dog")]⟩).1
      = ⟨500, [], some "ConnectionError"⟩ ∧ (500 : Nat) ≠ 200 := by
  decide

/-! ## src/lf2_deployment/lambda_function.py and Claim C10 -/

/-- `src/lf2_deployment` `get_keywords_from_lex`.  The `Option` is the Python
return value: `none` is Python `None` — when the recognized intent is not
`SearchIntent` no `return` statement executes and the function falls off the
end.  Only the interpreted slot value is read in this variant. -/
def get_keywords_from_lex_v0 (resp : Except String LexResponse) :
    Option (List String) :=
  match resp with
  | .error _ => some []
  | .ok r =>
    if r.intentName = some "SearchIntent" then
      some (match slotsGet r.slots "SearchTerm" with
        | none => []
        | some slot =>
          match slot.value with
          | none => []
          | some v =>
            if pyTruthyStr v.interpretedValue then
              ((pySplitWs (pyLower (v.interpretedValue.getD ""))).filter
                (fun k => pyStrip k ≠ "")).map pyStrip
            else [])
    else none

/-- Claim C10: for every extractor response recognized with an intent other
than `SearchIntent` (and no exception raised), `get_keywords_from_lex` in
`src/lf2_deployment` returns Python `None` — not the empty list the
interface suggests — so the caller's "no keywords" check relies on `None`
being falsy. -/
theorem c10_theorem (r : LexResponse)
    (h : r.intentName ≠ some "SearchIntent") :
    get_keywords_from_lex_v0 (.ok r) = none ∧
      (none : Option (List String)) ≠ some [] := by
  constructor
  · simp [get_keywords_from_lex_v0, h]
  · simp

/-- Claim C10 witness: the theorem applied at a concrete response. -/
theorem c10_witness :
    get_keywords_from_lex_v0 (.ok ⟨some "GreetingIntent", []⟩) = none ∧
      (none : Option (List String)) ≠ some [] :=
  c10_theorem ⟨some "GreetingIntent", []⟩ (by decide)

end PhotoAlbum
